import Mathlib

/-!
Verification development for the TofuApp repository.

The data-manager persistence layer (`src/data_manager.py`) and the
chemical-calculation helpers (basket filter rounding, pipe diameter
formulas, heat-exchanger LMTD, tank liquid volumes, pressure-pipe
classification) are shallowly embedded below.  Exact numeric code is
modelled over `ℚ`; formulas that use transcendental functions
(`math.log`, `math.acos`, `math.sin`, fractional powers) are modelled
over `ℝ`.  Python dictionaries are modelled as structures with
`Option`-typed fields, Python exceptions as `Except` values, and the
SQLite tables as lists of rows.
-/

/-! ## Python string primitives (str.strip, str.upper, float parsing) -/

/-- The characters `str.strip()` removes (ASCII whitespace). -/
def isPySpace (c : Char) : Bool :=
  c = ' ' || c = '\t' || c = '\n' || c = '\r' || c = '\x0b' || c = '\x0c'

/-- Model of Python `str.strip()`: drop whitespace from both ends. -/
def pyStrip (s : String) : String :=
  ⟨((s.toList.dropWhile isPySpace).reverse.dropWhile isPySpace).reverse⟩

/-- Model of Python `str.upper()` (the tokens involved are ASCII). -/
def pyUpper (s : String) : String := ⟨s.toList.map Char.toUpper⟩

/-- Numeric value of a list of decimal digit characters. -/
def digitsToNat (cs : List Char) : Nat :=
  cs.foldl (fun a c => a * 10 + (c.toNat - 48)) 0

/-- Parse the unsigned mantissa of a Python float literal:
`digits [. digits]` or `. digits`.  Returns the mantissa as an integer
together with the number of fractional digits, and the rest. -/
def parseMantissa (cs : List Char) : Option ((Nat × Nat) × List Char) :=
  let intPart := cs.takeWhile Char.isDigit
  let rest := cs.dropWhile Char.isDigit
  match rest with
  | '.' :: rest2 =>
      let fracPart := rest2.takeWhile Char.isDigit
      let rest3 := rest2.dropWhile Char.isDigit
      if intPart.isEmpty && fracPart.isEmpty then none
      else some ((digitsToNat intPart * 10 ^ fracPart.length + digitsToNat fracPart,
                  fracPart.length), rest3)
  | _ => if intPart.isEmpty then none else some ((digitsToNat intPart, 0), rest)

/-- Parse an optional exponent part `e[±]digits`. -/
def parseExponent (cs : List Char) : Option (Int × List Char) :=
  match cs with
  | c :: rest =>
      if c = 'e' || c = 'E' then
        let (sgn, rest2) : Int × List Char :=
          match rest with
          | '+' :: r => (1, r)
          | '-' :: r => (-1, r)
          | r => (1, r)
        let ds := rest2.takeWhile Char.isDigit
        let rest3 := rest2.dropWhile Char.isDigit
        if ds.isEmpty then none else some (sgn * (digitsToNat ds : Int), rest3)
      else some (0, cs)
  | [] => some (0, [])

/-- Parse a Python float literal into (signed integer mantissa,
fractional-digit count, exponent); `none` is the `ValueError` path. -/
def pyFloatParts (s : String) : Option (Int × Nat × Int) :=
  let cs := s.toList
  let (neg, cs1) : Bool × List Char :=
    match cs with
    | '+' :: r => (false, r)
    | '-' :: r => (true, r)
    | r => (false, r)
  match parseMantissa cs1 with
  | none => none
  | some ((m, f), rest) =>
      match parseExponent rest with
      | none => none
      | some (e, rest2) =>
          if rest2.isEmpty then
            some ((if neg then -(m : Int) else (m : Int)), f, e)
          else none

/-- Model of Python `float(s)` on finite decimal literals, idealised
over `ℚ`: optional sign, mantissa, optional exponent, nothing else.
Strings Python would reject yield `none` (the `ValueError` path). -/
def pyFloat (s : String) : Option ℚ :=
  (pyFloatParts s).map
    (fun p => (p.1 : ℚ) / (10 : ℚ) ^ p.2.1 * (10 : ℚ) ^ p.2.2)

/-! ## `DataManager._safe_float` (src/data_manager.py lines 164-177) -/

/-- A Python value as seen by `_safe_float`: an int (Python `bool`
included, being an `int` subclass), a float, a string, or anything
else. -/
inductive PyVal where
  | vInt (n : Int)
  | vFloat (x : ℚ)
  | vStr (s : String)
  | vOther
deriving DecidableEq

/-- The sentinel strings treated as "no value" by `_safe_float`. -/
def nullTokens : List String := ["NT", "N/A", "NA", "NULL", "-", "--", ""]

/-- `s` is a null sentinel after stripping and upper-casing. -/
def isNullToken (s : String) : Bool := nullTokens.contains (pyUpper (pyStrip s))

/-- Embedding of `DataManager._safe_float(value, default)`.  Numeric
inputs return their float value; strings are stripped and checked
against the sentinel list, otherwise parsed (parse failure gives the
default); any other type gives the default.  Total by construction. -/
def safe_float (value : PyVal) (default : ℚ) : ℚ :=
  match value with
  | .vInt n => (n : ℚ)
  | .vFloat x => x
  | .vStr s =>
      let cleaned := pyStrip s
      if nullTokens.contains (pyUpper cleaned) then default
      else (pyFloat cleaned).getD default
  | .vOther => default

/-! ## Basket-filter `round_value`
(src/modules/chemical_calculations/calculators/basket_filter_design_calculator.py
lines 460-471) -/

/-- Embedding of `round_value(value, value_type)`: area and pressure
ceil to 0.001, dimension ceils to 10, weight ceils to 1; any other
type tag returns the value unchanged. -/
def round_value (value : ℚ) (value_type : String) : ℚ :=
  if value_type = "area" then (⌈value * 1000⌉ : ℚ) / 1000
  else if value_type = "dimension" then (⌈value / 10⌉ : ℚ) * 10
  else if value_type = "pressure" then (⌈value * 1000⌉ : ℚ) / 1000
  else if value_type = "weight" then (⌈value⌉ : ℚ)
  else value

/-! ## Pressure-pipe classifier
(src/modules/chemical_calculations/calculators/pressure_pipe_definition.py
lines 253-270) -/

/-- Embedding of `is_pressure_pipe(pressure, diameter, media_type, temp)`:
pressure ≥ 0.1 MPa and diameter > 25 mm, plus a media condition. -/
def is_pressure_pipe (pressure diameter : ℚ) (media_type : String) (temp : ℚ) : Bool :=
  if pressure < 1/10 ∨ diameter ≤ 25 then false
  else if media_type ∈ ["气体", "液化气体", "蒸汽"] then true
  else if media_type ∈ ["可燃液体", "有毒介质"] then true
  else if media_type = "一般液体" ∧ temp ≥ 100 then true
  else false

/-! ## Theorems: C2, C5, C9 -/

/-- C2: the safe-float coercion is total and never raises; ints and
floats return their float value; strings whose stripped, upper-cased
form is a null sentinel return the default; every other string returns
its float parse when it succeeds and the default otherwise; any other
type returns the default.  Concretely `"12.5"` gives `12.5` and
`"abc"` gives the default. -/
theorem safe_float_spec (d : ℚ) :
    (∀ n : Int, safe_float (.vInt n) d = (n : ℚ)) ∧
    (∀ x : ℚ, safe_float (.vFloat x) d = x) ∧
    (∀ s : String, isNullToken s = true → safe_float (.vStr s) d = d) ∧
    (∀ s : String, isNullToken s = false →
        safe_float (.vStr s) d = (pyFloat (pyStrip s)).getD d) ∧
    safe_float .vOther d = d ∧
    safe_float (.vStr "12.5") d = 25/2 ∧
    safe_float (.vStr "abc") d = d := by
  have hstr : ∀ s : String, safe_float (.vStr s) d =
      if nullTokens.contains (pyUpper (pyStrip s)) = true then d
      else (pyFloat (pyStrip s)).getD d := fun s => rfl
  refine ⟨fun n => rfl, fun x => rfl, ?_, ?_, rfl, ?_, ?_⟩
  · intro s h
    rw [hstr s]
    exact if_pos h
  · intro s h
    have hc : nullTokens.contains (pyUpper (pyStrip s)) = false := h
    rw [hstr s]
    exact if_neg (by rw [hc]; exact Bool.false_ne_true)
  · have h3 : pyFloatParts "12.5" = some (125, 1, 0) := by decide
    have h1 : pyStrip "12.5" = "12.5" := by decide
    have h2 : nullTokens.contains (pyUpper "12.5") = false := by decide
    rw [hstr _, h1, if_neg (by rw [h2]; exact Bool.false_ne_true), pyFloat, h3]
    norm_num
  · have h3 : pyFloatParts "abc" = none := by decide
    have h1 : pyStrip "abc" = "abc" := by decide
    have h2 : nullTokens.contains (pyUpper "abc") = false := by decide
    rw [hstr _, h1, if_neg (by rw [h2]; exact Bool.false_ne_true), pyFloat, h3]
    rfl

/-- Closed instance of `safe_float_spec`: the padded lower-case
sentinel `" n/a "` yields the caller-supplied default. -/
theorem safe_float_spec_witness : safe_float (.vStr " n/a ") 7 = 7 :=
  (safe_float_spec 7).2.2.1 " n/a " (by decide)

/-- C5: each basket-filter rounding rule rounds up (result ≥ input)
and is idempotent, and the four concrete examples from the spec hold:
`round(123, dimension) = 130`, `round(125.3, weight) = 126`,
`round(0.0031, area) = 0.004`, `round(0.0029, pressure) = 0.003`. -/
theorem round_value_spec :
    (∀ v : ℚ, v ≤ round_value v "area" ∧ v ≤ round_value v "dimension" ∧
      v ≤ round_value v "pressure" ∧ v ≤ round_value v "weight") ∧
    (∀ v : ℚ,
      round_value (round_value v "area") "area" = round_value v "area" ∧
      round_value (round_value v "dimension") "dimension" = round_value v "dimension" ∧
      round_value (round_value v "pressure") "pressure" = round_value v "pressure" ∧
      round_value (round_value v "weight") "weight" = round_value v "weight") ∧
    round_value 123 "dimension" = 130 ∧
    round_value 125.3 "weight" = 126 ∧
    round_value 0.0031 "area" = 0.004 ∧
    round_value 0.0029 "pressure" = 0.003 := by
  have h1000 : (0:ℚ) < 1000 := by norm_num
  have h10 : (0:ℚ) < 10 := by norm_num
  have harea : ∀ v : ℚ, round_value v "area" = (⌈v * 1000⌉ : ℚ) / 1000 := by
    intro v; simp [round_value]
  have hdim : ∀ v : ℚ, round_value v "dimension" = (⌈v / 10⌉ : ℚ) * 10 := by
    intro v; simp [round_value]
  have hpre : ∀ v : ℚ, round_value v "pressure" = (⌈v * 1000⌉ : ℚ) / 1000 := by
    intro v; simp [round_value]
  have hwei : ∀ v : ℚ, round_value v "weight" = (⌈v⌉ : ℚ) := by
    intro v; simp [round_value]
  refine ⟨?_, ?_, ?_, ?_, ?_, ?_⟩
  · intro v
    refine ⟨?_, ?_, ?_, ?_⟩
    · rw [harea, le_div_iff₀ h1000]; exact Int.le_ceil _
    · rw [hdim]; exact (div_le_iff₀ h10).mp (Int.le_ceil _)
    · rw [hpre, le_div_iff₀ h1000]; exact Int.le_ceil _
    · rw [hwei]; exact Int.le_ceil _
  · intro v
    refine ⟨?_, ?_, ?_, ?_⟩
    · rw [harea, harea, div_mul_cancel₀ _ (by norm_num : (1000:ℚ) ≠ 0), Int.ceil_intCast]
    · rw [hdim, hdim, mul_div_cancel_right₀ _ (by norm_num : (10:ℚ) ≠ 0), Int.ceil_intCast]
    · rw [hpre, hpre, div_mul_cancel₀ _ (by norm_num : (1000:ℚ) ≠ 0), Int.ceil_intCast]
    · rw [hwei, hwei, Int.ceil_intCast]
  · rw [hdim, show ⌈(123:ℚ)/10⌉ = 13 by rw [Int.ceil_eq_iff]; norm_num]
    norm_num
  · rw [hwei, show ⌈(125.3:ℚ)⌉ = 126 by rw [Int.ceil_eq_iff]; norm_num]
    norm_num
  · rw [harea, show ⌈(0.0031:ℚ) * 1000⌉ = 4 by rw [Int.ceil_eq_iff]; norm_num]
    norm_num
  · rw [hpre, show ⌈(0.0029:ℚ) * 1000⌉ = 3 by rw [Int.ceil_eq_iff]; norm_num]
    norm_num

/-- C9: the pressure-pipe classifier returns true exactly when
pressure ≥ 0.1 MPa, nominal diameter > 25 mm, and the media condition
holds (gas/liquefied-gas/steam and flammable-liquid/toxic-medium
always; general liquid only at working temperature ≥ 100 °C); every
other combination returns false. -/
theorem is_pressure_pipe_spec (pressure diameter temp : ℚ) (media_type : String) :
    is_pressure_pipe pressure diameter media_type temp = true ↔
      (1/10 ≤ pressure ∧ 25 < diameter ∧
        (media_type = "气体" ∨ media_type = "液化气体" ∨ media_type = "蒸汽" ∨
         media_type = "可燃液体" ∨ media_type = "有毒介质" ∨
         (media_type = "一般液体" ∧ 100 ≤ temp))) := by
  unfold is_pressure_pipe
  split_ifs with h1 h2 h3 h4
  · refine iff_of_false id ?_
    rintro ⟨hp, hd, -⟩
    rcases h1 with h | h
    · exact absurd hp (not_le.mpr h)
    · exact absurd hd (not_lt.mpr h)
  · push_neg at h1
    simp only [List.mem_cons, List.mem_singleton, List.not_mem_nil, or_false] at h2
    exact iff_of_true rfl ⟨h1.1, h1.2, by tauto⟩
  · push_neg at h1
    simp only [List.mem_cons, List.mem_singleton, List.not_mem_nil, or_false] at h3
    exact iff_of_true rfl ⟨h1.1, h1.2, by tauto⟩
  · push_neg at h1
    exact iff_of_true rfl ⟨h1.1, h1.2, by tauto⟩
  · refine iff_of_false id ?_
    simp only [List.mem_cons, List.mem_singleton, List.not_mem_nil, or_false] at h2 h3
    push_neg at h2 h3
    rintro ⟨-, -, hm⟩
    rcases hm with h | h | h | h | h | hgen
    · exact h2.1 h
    · exact h2.2.1 h
    · exact h2.2.2 h
    · exact h3.1 h
    · exact h3.2 h
    · exact h4 hgen

/-! ## Report counter and report numbering
(src/data_manager.py lines 223-262) -/

/-- The single `report_counter` row as `get_report_counter` returns it
(a `{"date": ..., "count": ...}` dictionary). -/
structure ReportCounter where
  date : String
  count : Int
deriving DecidableEq

/-- Embedding of `get_report_counter()`: the first stored row, or the
`{"date": "", "count": 0}` default when the table is empty.  The table
contents are the `Option ReportCounter` argument. -/
def get_report_counter (stored : Option ReportCounter) : ReportCounter :=
  stored.getD ⟨"", 0⟩

/-- Embedding of the state change of a successful
`update_report_counter(counter)`: delete-all then insert the new row. -/
def update_report_counter (counter : ReportCounter) : Option ReportCounter :=
  some counter

/-- Zero-padding of Python's `f"{n:03d}"` format. -/
def pad3 (n : Int) : String :=
  if 0 ≤ n then
    let s := toString n.toNat
    if 3 ≤ s.length then s else ⟨List.replicate (3 - s.length) '0'⟩ ++ s
  else
    let s := toString (-n).toNat
    if 2 ≤ s.length then "-" ++ s else "-" ++ ⟨List.replicate (2 - s.length) '0'⟩ ++ s

/-- Embedding of `get_next_report_number(prefix)`.  `today` stands for
`datetime.now().strftime("%Y%m%d")`; the stored counter is read, reset
to `{today, 1}` on a date change or incremented otherwise, persisted,
and the formatted report number returned. -/
def get_next_report_number (today pfx : String) (stored : Option ReportCounter) :
    String × Option ReportCounter :=
  let counter := get_report_counter stored
  let counter' : ReportCounter :=
    if counter.date ≠ today then ⟨today, 1⟩
    else ⟨counter.date, counter.count + 1⟩
  let report := pfx ++ "-" ++ today ++ "-" ++ pad3 counter'.count
  (report, update_report_counter counter')

/-! ## Error handling at the persistence boundary
(src/data_manager.py lines 180-220, 265-289) -/

/-- A raised database exception (the argument is the message). -/
inductive DBError where
  | exn (msg : String)
deriving DecidableEq

/-- A raw `project_info` row; each column is nullable. -/
structure ProjectInfoRow where
  company_name : Option String
  project_number : Option String
  project_name : Option String
  subproject_name : Option String
deriving DecidableEq

/-- The four-field record `get_project_info` returns. -/
structure ProjectInfo where
  company_name : String
  project_number : String
  project_name : String
  subproject_name : String
deriving DecidableEq

/-- Embedding of `get_project_info()`.  The argument is the outcome of
the underlying `SELECT` (which may raise).  The source has no
`try/except` here, so a raised error propagates; a successful query
with no row yields the empty-string defaults, and `row[col] or ""`
turns a NULL column into `""`. -/
def get_project_info (db : Except DBError (Option ProjectInfoRow)) :
    Except DBError ProjectInfo :=
  match db with
  | .error e => .error e
  | .ok (some row) =>
      .ok ⟨row.company_name.getD "", row.project_number.getD "",
           row.project_name.getD "", row.subproject_name.getD ""⟩
  | .ok none => .ok ⟨"", "", "", ""⟩

/-- Embedding of the `update_project_info` result: the whole body is
wrapped in `try/except`, so a raised error becomes `False` and success
`True`. -/
def update_project_info_result (db : Except DBError Unit) : Bool :=
  match db with
  | .ok _ => true
  | .error _ => false

/-- Embedding of the `update_report_counter` result (same
`try/except` wrapper as `update_project_info`). -/
def update_report_counter_result (db : Except DBError Unit) : Bool :=
  match db with
  | .ok _ => true
  | .error _ => false

/-- Embedding of `get_settings()`: builds the key→value map from the
rows; no `try/except`, so a raised error propagates. -/
def get_settings (db : Except DBError (List (String × String))) :
    Except DBError (List (String × String)) :=
  match db with
  | .error e => .error e
  | .ok rows => .ok rows

/-- C1: `get_next_report_number` resets the counter to `{today, 1}`
and returns suffix `001` when the stored date differs from today,
otherwise increments the stored count (0 when missing) and returns it
zero-padded to three digits; starting with no stored row, three calls
on one date give 001, 002, 003 and a call on the next date gives 001. -/
theorem get_next_report_number_spec (today pfx : String) (stored : Option ReportCounter) :
    ((get_report_counter stored).date ≠ today →
        get_next_report_number today pfx stored =
          (pfx ++ "-" ++ today ++ "-" ++ "001", some ⟨today, 1⟩)) ∧
    ((get_report_counter stored).date = today →
        get_next_report_number today pfx stored =
          (pfx ++ "-" ++ today ++ "-" ++ pad3 ((get_report_counter stored).count + 1),
           some ⟨today, (get_report_counter stored).count + 1⟩)) ∧
    ((get_next_report_number "20240101" "PD" none).1 = "PD-20240101-001" ∧
     (get_next_report_number "20240101" "PD"
       (get_next_report_number "20240101" "PD" none).2).1 = "PD-20240101-002" ∧
     (get_next_report_number "20240101" "PD"
       (get_next_report_number "20240101" "PD"
         (get_next_report_number "20240101" "PD" none).2).2).1 = "PD-20240101-003" ∧
     (get_next_report_number "20240102" "PD"
       (get_next_report_number "20240101" "PD"
         (get_next_report_number "20240101" "PD"
           (get_next_report_number "20240101" "PD" none).2).2).2).1 = "PD-20240102-001") := by
  refine ⟨?_, ?_, by decide⟩
  · intro h
    have hp : pad3 (1 : Int) = "001" := by decide
    simp [get_next_report_number, update_report_counter, if_pos h, hp]
  · intro h
    have hcond : ¬((get_report_counter stored).date ≠ today) := fun hne => hne h
    simp [get_next_report_number, update_report_counter, if_neg hcond, h]

/-- Closed instance of `get_next_report_number_spec`: with no stored
counter row, the first call on 2024-01-01 returns `PD-20240101-001`
and persists `{date 20240101, count 1}`. -/
theorem get_next_report_number_spec_witness :
    get_next_report_number "20240101" "PD" none =
      ("PD" ++ "-" ++ "20240101" ++ "-" ++ "001", some ⟨"20240101", 1⟩) :=
  (get_next_report_number_spec "20240101" "PD" none).1 (by decide)

/-- C3 counterexample: a failing database read inside
`get_project_info` propagates as an error — it does not surface the
empty-string default record, contradicting the claim that read
failures are caught at the operation boundary. -/
theorem get_project_info_error_counterexample :
    get_project_info (Except.error (DBError.exn "disk I/O error")) =
      Except.error (DBError.exn "disk I/O error") ∧
    get_project_info (Except.error (DBError.exn "disk I/O error")) ≠
      Except.ok ⟨"", "", "", ""⟩ :=
  ⟨rfl, fun h => Except.noConfusion h⟩

/-- C3 (amended): write operations (`update_project_info`,
`update_report_counter`) catch database failures and return `false`
(and `true` on success); read operations (`get_project_info`,
`get_settings`) have no handler, so a database failure propagates to
the caller, and the empty/default value is returned only when the
query itself succeeds and finds no row. -/
theorem persistence_error_handling (e : DBError) :
    update_project_info_result (.error e) = false ∧
    update_project_info_result (.ok ()) = true ∧
    update_report_counter_result (.error e) = false ∧
    update_report_counter_result (.ok ()) = true ∧
    get_project_info (.error e) = .error e ∧
    get_project_info (.ok none) = .ok ⟨"", "", "", ""⟩ ∧
    get_settings (.error e) = .error e :=
  ⟨rfl, rfl, rfl, rfl, rfl, rfl, rfl⟩

/-! ## Data-manager state machine for the singleton-row invariant
(src/data_manager.py lines 199-220, 232-247, 273-289, 299-507) -/

/-- The tables of the SQLite store, as the Data Manager sees them.  The
two singleton tables carry their real row shapes; the remaining tables
are tracked at row granularity with a representative payload. -/
structure DMState where
  project_info : List ProjectInfoRow
  report_counter : List ReportCounter
  settings : List (String × String)
  equipment : List String
  equipment_name_mapping : List (String × String)
  materials : List String
  msds_documents : List String
  projects : List String

/-- The freshly-created database: every table empty. -/
def initState : DMState := ⟨[], [], [], [], [], [], [], []⟩

/-- State change of a successful `update_project_info`: `DELETE FROM
project_info` followed by a single `INSERT`. -/
def update_project_info_ok (s : DMState) (r : ProjectInfoRow) : DMState :=
  { s with project_info := [r] }

/-- State change when `update_project_info`'s `INSERT` raises after the
`DELETE` took effect (the except-branch returns `False`). -/
def update_project_info_fail (s : DMState) : DMState :=
  { s with project_info := [] }

/-- State change of a successful `update_report_counter`: delete-all
then insert one row. -/
def update_report_counter_ok (s : DMState) (c : ReportCounter) : DMState :=
  { s with report_counter := [c] }

/-- State change when `update_report_counter`'s `INSERT` raises after
the `DELETE` took effect. -/
def update_report_counter_fail (s : DMState) : DMState :=
  { s with report_counter := [] }

/-- The table contents corresponding to an `Option`al singleton row. -/
def tableOfRow : Option ReportCounter → List ReportCounter
  | none => []
  | some c => [c]

/-- State change of `get_next_report_number`: read the first counter
row, apply the date-reset/increment rule, persist the new row. -/
def next_report_number_op (s : DMState) (today p : String) : DMState :=
  { s with report_counter :=
      tableOfRow (get_next_report_number today p s.report_counter.head?).2 }

/-- State change of `update_settings`: delete-all then insert each
entry of the new map. -/
def update_settings_op (s : DMState) (kv : List (String × String)) : DMState :=
  { s with settings := kv }

/-- State change of `add_equipment` / its `INSERT OR REPLACE`: upsert
keyed on the equipment id. -/
def add_equipment_op (s : DMState) (eid : String) : DMState :=
  { s with equipment := eid :: s.equipment.erase eid }

/-- State change of `delete_equipment`. -/
def delete_equipment_op (s : DMState) (eid : String) : DMState :=
  { s with equipment := s.equipment.erase eid }

/-- State change of `add_equipment_name_mapping` (insert-or-replace). -/
def add_equipment_name_mapping_op (s : DMState) (cn en : String) : DMState :=
  { s with equipment_name_mapping :=
      (cn, en) :: s.equipment_name_mapping.filter (fun p => p.1 ≠ cn) }

/-- State change of `remove_equipment_name_mapping`. -/
def remove_equipment_name_mapping_op (s : DMState) (cn : String) : DMState :=
  { s with equipment_name_mapping :=
      s.equipment_name_mapping.filter (fun p => p.1 ≠ cn) }

/-- State change of `add_material`. -/
def add_material_op (s : DMState) (m : String) : DMState :=
  { s with materials := s.materials ++ [m] }

/-- State change of `add_msds_document`. -/
def add_msds_document_op (s : DMState) (m : String) : DMState :=
  { s with msds_documents := s.msds_documents ++ [m] }

/-- State change of `add_project`. -/
def add_project_op (s : DMState) (p : String) : DMState :=
  { s with projects := s.projects ++ [p] }

/-- One Data-Manager operation, as a transition on the table state.
Read operations and writes that fail before any statement takes effect
leave the state unchanged (`read_or_noop`). -/
inductive DMStep : DMState → DMState → Prop where
  | project_info_ok (s : DMState) (r : ProjectInfoRow) :
      DMStep s (update_project_info_ok s r)
  | project_info_fail (s : DMState) : DMStep s (update_project_info_fail s)
  | report_counter_ok (s : DMState) (c : ReportCounter) :
      DMStep s (update_report_counter_ok s c)
  | report_counter_fail (s : DMState) : DMStep s (update_report_counter_fail s)
  | next_report_number (s : DMState) (today p : String) :
      DMStep s (next_report_number_op s today p)
  | read_or_noop (s : DMState) : DMStep s s
  | settings (s : DMState) (kv : List (String × String)) :
      DMStep s (update_settings_op s kv)
  | equipment_add (s : DMState) (eid : String) : DMStep s (add_equipment_op s eid)
  | equipment_delete (s : DMState) (eid : String) :
      DMStep s (delete_equipment_op s eid)
  | name_mapping_add (s : DMState) (cn en : String) :
      DMStep s (add_equipment_name_mapping_op s cn en)
  | name_mapping_remove (s : DMState) (cn : String) :
      DMStep s (remove_equipment_name_mapping_op s cn)
  | material_add (s : DMState) (m : String) : DMStep s (add_material_op s m)
  | msds_add (s : DMState) (m : String) : DMStep s (add_msds_document_op s m)
  | project_add (s : DMState) (p : String) : DMStep s (add_project_op s p)

/-- States reachable from a freshly-created database. -/
inductive DMReachable : DMState → Prop where
  | init : DMReachable initState
  | step {s t : DMState} : DMReachable s → DMStep s t → DMReachable t

/-- A singleton-row table never holds more than one row. -/
theorem tableOfRow_length (o : Option ReportCounter) : (tableOfRow o).length ≤ 1 := by
  cases o <;> simp [tableOfRow]

/-- C4: in every reachable state the `project_info` and
`report_counter` tables hold at most one row; a successful
`update_project_info` / `update_report_counter` leaves exactly one
row (delete-all then single insert); and every other Data-Manager
operation leaves both singleton tables untouched. -/
theorem singleton_row_invariant :
    (∀ s, DMReachable s →
        s.project_info.length ≤ 1 ∧ s.report_counter.length ≤ 1) ∧
    (∀ s r, (update_project_info_ok s r).project_info.length = 1) ∧
    (∀ s c, (update_report_counter_ok s c).report_counter.length = 1) ∧
    (∀ s kv, (update_settings_op s kv).project_info = s.project_info ∧
             (update_settings_op s kv).report_counter = s.report_counter) ∧
    (∀ s eid, (add_equipment_op s eid).project_info = s.project_info ∧
              (add_equipment_op s eid).report_counter = s.report_counter) ∧
    (∀ s eid, (delete_equipment_op s eid).project_info = s.project_info ∧
              (delete_equipment_op s eid).report_counter = s.report_counter) ∧
    (∀ s cn en,
        (add_equipment_name_mapping_op s cn en).project_info = s.project_info ∧
        (add_equipment_name_mapping_op s cn en).report_counter = s.report_counter) ∧
    (∀ s cn,
        (remove_equipment_name_mapping_op s cn).project_info = s.project_info ∧
        (remove_equipment_name_mapping_op s cn).report_counter = s.report_counter) ∧
    (∀ s m, (add_material_op s m).project_info = s.project_info ∧
            (add_material_op s m).report_counter = s.report_counter) ∧
    (∀ s m, (add_msds_document_op s m).project_info = s.project_info ∧
            (add_msds_document_op s m).report_counter = s.report_counter) ∧
    (∀ s p, (add_project_op s p).project_info = s.project_info ∧
            (add_project_op s p).report_counter = s.report_counter) := by
  refine ⟨?_, fun s r => rfl, fun s c => rfl, fun s kv => ⟨rfl, rfl⟩,
    fun s e => ⟨rfl, rfl⟩, fun s e => ⟨rfl, rfl⟩, fun s c e => ⟨rfl, rfl⟩,
    fun s c => ⟨rfl, rfl⟩, fun s m => ⟨rfl, rfl⟩, fun s m => ⟨rfl, rfl⟩,
    fun s p => ⟨rfl, rfl⟩⟩
  intro s hs
  induction hs with
  | init => exact ⟨Nat.zero_le 1, Nat.zero_le 1⟩
  | step _ hstep ih =>
    cases hstep with
    | project_info_ok r => exact ⟨le_refl 1, ih.2⟩
    | project_info_fail => exact ⟨Nat.zero_le 1, ih.2⟩
    | report_counter_ok c => exact ⟨ih.1, le_refl 1⟩
    | report_counter_fail => exact ⟨ih.1, Nat.zero_le 1⟩
    | next_report_number today p =>
      refine ⟨ih.1, ?_⟩
      simp only [next_report_number_op]
      exact tableOfRow_length _
    | read_or_noop => exact ih
    | settings kv => exact ih
    | equipment_add eid => exact ih
    | equipment_delete eid => exact ih
    | name_mapping_add cn en => exact ih
    | name_mapping_remove cn => exact ih
    | material_add m => exact ih
    | msds_add m => exact ih
    | project_add p => exact ih

/-- Closed instance of `singleton_row_invariant`: after the first
successful `update_project_info` on a fresh database, both singleton
tables hold at most one row. -/
theorem singleton_row_invariant_witness :
    (update_project_info_ok initState ⟨none, none, none, none⟩).project_info.length ≤ 1 ∧
    (update_project_info_ok initState ⟨none, none, none, none⟩).report_counter.length ≤ 1 :=
  singleton_row_invariant.1 _
    (DMReachable.step DMReachable.init (DMStep.project_info_ok initState ⟨none, none, none, none⟩))

/-! ## `add_equipment` in-place normalization
(src/data_manager.py lines 299-341) -/

/-- The `equipment_data` dictionary passed to `add_equipment`; absent
keys are `none`. -/
structure EquipmentData where
  equipment_id : Option String
  name : Option String
  description_en : Option String
  design_pressure : Option PyVal
  design_temperature : Option PyVal
  unique_code : Option String
  created_at : Option String
  updated_at : Option String
  other_fields : Option String
deriving DecidableEq

/-- Eight upper-case hexadecimal characters, the shape of
`uuid.uuid4().hex[:8].upper()`. -/
def isUpperHex8 (s : String) : Bool :=
  s.length = 8 && s.toList.all (fun c => c.isDigit || ('A' ≤ c && c ≤ 'F'))

/-- Embedding of `add_equipment(equipment_data)`.  `fresh_hex` stands
for `uuid.uuid4().hex[:8].upper()` and `now` for
`datetime.now().isoformat()`; `db` is the outcome of the INSERT OR
REPLACE.  The record is normalized in place (safe-float coercion of
the two design fields, id generation for a missing/falsy id,
`updated_at` stamp, `created_at` stamp when the key is absent) before
the write; the call returns the success flag and the mutated record. -/
def add_equipment (e : EquipmentData) (fresh_hex now : String)
    (db : Except DBError Unit) : Bool × EquipmentData :=
  let e1 := { e with
    design_pressure := some (.vFloat (safe_float (e.design_pressure.getD (.vInt 0)) 0)),
    design_temperature := some (.vFloat (safe_float (e.design_temperature.getD (.vInt 0)) 0)) }
  let e2 := if e1.equipment_id = none ∨ e1.equipment_id = some "" then
      { e1 with equipment_id := some ("EQ_" ++ fresh_hex) }
    else e1
  let e3 := { e2 with updated_at := some now }
  let e4 := if e3.created_at = none then { e3 with created_at := some now } else e3
  match db with
  | .ok _ => (true, e4)
  | .error _ => (false, e4)

/-- C10: `add_equipment` mutates its argument record in place: after
every call the design fields hold their safe-float coercions, a
missing or empty `equipment_id` is replaced by `"EQ_"` followed by 8
upper-case hex characters, `updated_at` is stamped, `created_at` is
stamped when absent and preserved when present — and the mutated
record is identical whether the database write succeeds or fails. -/
theorem add_equipment_normalization (e : EquipmentData) (fresh_hex now : String)
    (db : Except DBError Unit) (hhex : isUpperHex8 fresh_hex = true) :
    ((add_equipment e fresh_hex now db).2.design_pressure =
        some (.vFloat (safe_float (e.design_pressure.getD (.vInt 0)) 0))) ∧
    ((add_equipment e fresh_hex now db).2.design_temperature =
        some (.vFloat (safe_float (e.design_temperature.getD (.vInt 0)) 0))) ∧
    ((e.equipment_id = none ∨ e.equipment_id = some "") →
        (add_equipment e fresh_hex now db).2.equipment_id = some ("EQ_" ++ fresh_hex) ∧
        ∃ hx, (add_equipment e fresh_hex now db).2.equipment_id = some ("EQ_" ++ hx) ∧
          isUpperHex8 hx = true) ∧
    (∀ id, e.equipment_id = some id → id ≠ "" →
        (add_equipment e fresh_hex now db).2.equipment_id = some id) ∧
    ((add_equipment e fresh_hex now db).2.updated_at = some now) ∧
    (e.created_at = none → (add_equipment e fresh_hex now db).2.created_at = some now) ∧
    (∀ t, e.created_at = some t → (add_equipment e fresh_hex now db).2.created_at = some t) ∧
    (∀ err : DBError,
        (add_equipment e fresh_hex now (.error err)).1 = false ∧
        (add_equipment e fresh_hex now (.ok ())).1 = true ∧
        (add_equipment e fresh_hex now (.error err)).2 =
          (add_equipment e fresh_hex now (.ok ())).2) := by
  cases db <;>
    refine ⟨?_, ?_, ?_, ?_, ?_, ?_, ?_, ?_⟩ <;>
      simp only [add_equipment] <;>
      first
        | (intro h
           constructor
           · split_ifs <;> simp_all [add_equipment]
           · exact ⟨fresh_hex, by split_ifs <;> simp_all [add_equipment], hhex⟩)
        | (intro id hid hne
           split_ifs <;> simp_all [add_equipment])
        | (intro t ht
           split_ifs <;> simp_all [add_equipment])
        | (intro h
           split_ifs <;> simp_all [add_equipment])
        | (intro err
           exact ⟨trivial, trivial, trivial⟩)
        | split_ifs <;> simp_all [add_equipment]

/-- Closed instance of `add_equipment_normalization`: on an empty
record with a fresh hex id and a fixed timestamp, the caller's record
comes back stamped with `updated_at`. -/
theorem add_equipment_normalization_witness :
    (add_equipment ⟨none, none, none, none, none, none, none, none, none⟩
       "0A1B2C3D" "2024-01-01T00:00:00" (.ok ())).2.updated_at =
      some "2024-01-01T00:00:00" :=
  (add_equipment_normalization ⟨none, none, none, none, none, none, none, none, none⟩
     "0A1B2C3D" "2024-01-01T00:00:00" (.ok ()) (by decide)).2.2.2.2.1

/-! ## Pipe diameter / flow formulas
(src/modules/chemical_calculations/calculators/pipe_diameter_calculator.py
lines 1086-1125) -/

/-- The `flow_unit` entry of the selected fluid/condition row of
`fluid_ranges` (`"t/h"`, `"m³/h"`, `"Nm³/h"`, or anything else, which
both functions treat as t/h). -/
inductive FlowUnit where
  | tph
  | m3ph
  | nm3ph
  | other

/-- The unit-normalisation prelude of `calculate_diameter_from_flow`:
convert the entered flow rate into kg/h. -/
noncomputable def convert_flow_to_kgph (flow_rate density : ℝ) : FlowUnit → ℝ
  | .tph => flow_rate * 1000
  | .m3ph => flow_rate * density
  | .nm3ph => flow_rate * 1.293
  | .other => flow_rate * 1000

/-- Embedding of `calculate_diameter_from_flow`:
`18.81 * W**0.5 * velocity**-0.5 * density**-0.5` (diameter in mm). -/
noncomputable def calculate_diameter_from_flow
    (flow_rate velocity density : ℝ) (u : FlowUnit) : ℝ :=
  let W := convert_flow_to_kgph flow_rate density u
  18.81 * W ^ (0.5 : ℝ) * velocity ^ (-0.5 : ℝ) * density ^ (-0.5 : ℝ)

/-- Embedding of `calculate_flow_from_diameter`:
`W = (diameter_mm / 18.81)**2 * velocity * density`, converted back to
the entered flow unit. -/
noncomputable def calculate_flow_from_diameter
    (diameter_mm velocity density : ℝ) (u : FlowUnit) : ℝ :=
  let W := (diameter_mm / 18.81) ^ (2 : ℕ) * velocity * density
  match u with
  | .tph => W / 1000
  | .m3ph => W / density
  | .nm3ph => W / 1.293
  | .other => W / 1000

/-- The mass-flow core of the round trip: squaring the diameter
formula and multiplying back by velocity and density recovers W. -/
theorem diameter_roundtrip_kgph (W velocity density : ℝ)
    (hW : 0 < W) (hv : 0 < velocity) (hd : 0 < density) :
    ((18.81 * W ^ (0.5 : ℝ) * velocity ^ (-0.5 : ℝ) * density ^ (-0.5 : ℝ)) / 18.81)
        ^ (2 : ℕ) * velocity * density = W := by
  have hA : (18.81 * W ^ (0.5 : ℝ) * velocity ^ (-0.5 : ℝ) * density ^ (-0.5 : ℝ)) / 18.81
      = W ^ (0.5 : ℝ) * velocity ^ (-0.5 : ℝ) * density ^ (-0.5 : ℝ) := by
    field_simp
    ring
  have e1 : (W ^ (0.5 : ℝ)) ^ (2 : ℕ) = W := by
    rw [← Real.rpow_natCast (W ^ (0.5 : ℝ)) 2, ← Real.rpow_mul hW.le]
    norm_num
  have e2 : (velocity ^ (-0.5 : ℝ)) ^ (2 : ℕ) = velocity⁻¹ := by
    rw [← Real.rpow_natCast (velocity ^ (-0.5 : ℝ)) 2, ← Real.rpow_mul hv.le]
    norm_num [Real.rpow_neg_one]
  have e3 : (density ^ (-0.5 : ℝ)) ^ (2 : ℕ) = density⁻¹ := by
    rw [← Real.rpow_natCast (density ^ (-0.5 : ℝ)) 2, ← Real.rpow_mul hd.le]
    norm_num [Real.rpow_neg_one]
  rw [hA, mul_pow, mul_pow, e1, e2, e3]
  field_simp
  ring

/-- C6: the pipe-diameter formula and the flow formula are exact
inverses, through each of the flow-unit conversions, for every
positive flow rate, velocity and density. -/
theorem pipe_diameter_flow_roundtrip (flow_rate velocity density : ℝ) (u : FlowUnit)
    (hf : 0 < flow_rate) (hv : 0 < velocity) (hd : 0 < density) :
    calculate_flow_from_diameter
        (calculate_diameter_from_flow flow_rate velocity density u)
        velocity density u = flow_rate := by
  cases u <;>
    simp only [calculate_flow_from_diameter, calculate_diameter_from_flow,
      convert_flow_to_kgph] <;>
    rw [diameter_roundtrip_kgph _ _ _ (by positivity) hv hd] <;>
    field_simp

/-- Closed instance of `pipe_diameter_flow_roundtrip` at
W = 2 t/h, u = 1 m/s, ρ = 1 kg/m³. -/
theorem pipe_diameter_flow_roundtrip_witness :
    calculate_flow_from_diameter
        (calculate_diameter_from_flow 2 1 1 .tph) 1 1 .tph = 2 :=
  pipe_diameter_flow_roundtrip 2 1 1 .tph (by norm_num) (by norm_num) (by norm_num)

/-! ## Heat-exchanger duty calculator, mode 3 LMTD
(src/modules/chemical_calculations/calculators/heat_exchanger_calculator.py
lines 1012-1020) -/

/-- The counter-current LMTD computation of `calculate_mode_3`: when
the two temperature differences are equal the result is the common
difference and the log-mean branch is not taken; otherwise the general
`(ΔT1-ΔT2)/ln(ΔT1/ΔT2)` formula applies. -/
noncomputable def lmtd_counter_current (delta_t1 delta_t2 : ℝ) : ℝ :=
  if delta_t1 = delta_t2 then delta_t1
  else (delta_t1 - delta_t2) / Real.log (delta_t1 / delta_t2)

/-- Embedding of the numeric part of `calculate_mode_3`: heat duty,
cold outlet temperature, and the LMTD (returned as the pair
(cold outlet temperature, LMTD)). -/
noncomputable def calculate_mode_3
    (hot_flow hot_cp hot_t1 hot_t2 cold_flow cold_cp cold_t1 : ℝ) : ℝ × ℝ :=
  let Q_hot := hot_flow * hot_cp * (hot_t1 - hot_t2) / 3600
  let cold_t2 := cold_t1 + Q_hot * 3600 / (cold_flow * cold_cp)
  let delta_t1 := hot_t1 - cold_t2
  let delta_t2 := hot_t2 - cold_t1
  (cold_t2, lmtd_counter_current delta_t1 delta_t2)

/-- C7: whenever ΔT1 = ΔT2 the LMTD computation returns ΔT1 exactly —
the equal branch of the `if` is selected, so the log-mean expression
(whose denominator would be ln(1) = 0) is never the value of the
computation; concretely, mode 3 with hot 90→60 °C and matched
flow·cp on a cold inlet of 20 °C gives a cold outlet of 50 °C, both
differences 40, and an LMTD of exactly 40. -/
theorem lmtd_equal_deltas (delta_t1 delta_t2 : ℝ) (h : delta_t1 = delta_t2) :
    lmtd_counter_current delta_t1 delta_t2 = delta_t1 ∧
    calculate_mode_3 1 1 90 60 1 1 20 = (50, 40) := by
  constructor
  · unfold lmtd_counter_current
    rw [if_pos h]
  · have h1 : (20:ℝ) + 1 * 1 * (90 - 60) / 3600 * 3600 / (1 * 1) = 50 := by norm_num
    simp only [calculate_mode_3, h1]
    norm_num
    unfold lmtd_counter_current
    rw [if_pos rfl]

/-- Closed instance of `lmtd_equal_deltas` at ΔT1 = ΔT2 = 40. -/
theorem lmtd_equal_deltas_witness :
    lmtd_counter_current 40 40 = 40 ∧ calculate_mode_3 1 1 90 60 1 1 20 = (50, 40) :=
  lmtd_equal_deltas 40 40 rfl

/-! ## Tank liquid volumes
(src/modules/chemical_calculations/calculators/tank_weight_calculator.py
lines 855-895) -/

/-- The circular-segment branch of
`calculate_horizontal_liquid_weight` (volume only):
`θ = 2·acos((R-h)/R)`, `segment = R²(θ - sin θ)/2`, times length. -/
noncomputable def horizontal_segment_volume (D L h : ℝ) : ℝ :=
  let R := D/2
  let theta := 2 * Real.arccos ((R - h)/R)
  let segment_area := R^2 * (theta - Real.sin theta)/2
  segment_area * L

/-- The spherical-cap branch of `calculate_sphere_liquid_weight`
(volume only): `(1/3)·π·h²·(3R - h)`. -/
noncomputable def sphere_cap_volume (D h : ℝ) : ℝ :=
  (1/3) * Real.pi * h^2 * (3*(D/2) - h)

/-- Embedding of `calculate_horizontal_liquid_weight(D, L, h,
liquid_density)`: piecewise volume (0 at h=0, full cylinder at h≥D,
circular segment in between) times the liquid density. -/
noncomputable def calculate_horizontal_liquid_weight
    (D L h liquid_density : ℝ) : ℝ :=
  let total_volume :=
    if h = 0 then 0
    else if h ≥ D then Real.pi * (D/2)^2 * L
    else horizontal_segment_volume D L h
  total_volume * liquid_density

/-- Embedding of `calculate_sphere_liquid_weight(D, h,
liquid_density)`: piecewise volume (0 at h=0, full sphere at h≥D,
spherical cap in between) times the liquid density. -/
noncomputable def calculate_sphere_liquid_weight
    (D h liquid_density : ℝ) : ℝ :=
  let total_volume :=
    if h = 0 then 0
    else if h ≥ D then (4/3) * Real.pi * (D/2)^3
    else sphere_cap_volume D h
  total_volume * liquid_density

/-- The circular-segment volume is a continuous function of the fill
height. -/
theorem horizontal_segment_volume_continuous (D L : ℝ) :
    Continuous (horizontal_segment_volume D L) := by
  unfold horizontal_segment_volume
  have c1 : Continuous fun h : ℝ => ((D/2) - h)/(D/2) :=
    (continuous_const.sub continuous_id).div_const _
  have c2 : Continuous fun h : ℝ => 2 * Real.arccos (((D/2) - h)/(D/2)) :=
    continuous_const.mul (Real.continuous_arccos.comp c1)
  have c3 : Continuous fun h : ℝ => Real.sin (2 * Real.arccos (((D/2) - h)/(D/2))) :=
    Real.continuous_sin.comp c2
  exact ((continuous_const.mul (c2.sub c3)).div_const 2).mul continuous_const

/-- C8: for every diameter D > 0 the horizontal-cylindrical and
spherical liquid volumes are exactly 0 at h = 0 and exactly the full
cylinder π(D/2)²L and the full sphere (4/3)π(D/2)³ at h = D, and the
partial-fill circular-segment and spherical-cap formulas take the
same boundary values and tend to them as h → 0 and h → D (no
discontinuity at either boundary). -/
theorem tank_liquid_volume_boundary (D L rho : ℝ) (hD : 0 < D) :
    calculate_horizontal_liquid_weight D L 0 rho = 0 ∧
    calculate_horizontal_liquid_weight D L D rho = (Real.pi * (D/2)^2 * L) * rho ∧
    calculate_sphere_liquid_weight D 0 rho = 0 ∧
    calculate_sphere_liquid_weight D D rho = ((4/3) * Real.pi * (D/2)^3) * rho ∧
    horizontal_segment_volume D L 0 = 0 ∧
    horizontal_segment_volume D L D = Real.pi * (D/2)^2 * L ∧
    sphere_cap_volume D 0 = 0 ∧
    sphere_cap_volume D D = (4/3) * Real.pi * (D/2)^3 ∧
    Filter.Tendsto (horizontal_segment_volume D L) (nhds 0) (nhds 0) ∧
    Filter.Tendsto (horizontal_segment_volume D L) (nhds D)
      (nhds (Real.pi * (D/2)^2 * L)) ∧
    Filter.Tendsto (sphere_cap_volume D) (nhds 0) (nhds 0) ∧
    Filter.Tendsto (sphere_cap_volume D) (nhds D)
      (nhds ((4/3) * Real.pi * (D/2)^3)) := by
  have hR : (D/2 : ℝ) ≠ 0 := by positivity
  have hseg0 : horizontal_segment_volume D L 0 = 0 := by
    simp [horizontal_segment_volume, sub_zero, div_self hR, Real.arccos_one,
      Real.sin_zero]
  have hsegD : horizontal_segment_volume D L D = Real.pi * (D/2)^2 * L := by
    have h1 : ((D/2 : ℝ) - D) / (D/2) = -1 := by field_simp; ring
    simp only [horizontal_segment_volume, h1, Real.arccos_neg_one, Real.sin_two_pi]
    ring
  have hcap0 : sphere_cap_volume D 0 = 0 := by
    unfold sphere_cap_volume; ring
  have hcapD : sphere_cap_volume D D = (4/3) * Real.pi * (D/2)^3 := by
    unfold sphere_cap_volume; ring
  have hcontH := horizontal_segment_volume_continuous D L
  have hcontS : Continuous (sphere_cap_volume D) := by
    unfold sphere_cap_volume; fun_prop
  refine ⟨?_, ?_, ?_, ?_, hseg0, hsegD, hcap0, hcapD, ?_, ?_, ?_, ?_⟩
  · simp [calculate_horizontal_liquid_weight]
  · unfold calculate_horizontal_liquid_weight
    rw [if_neg hD.ne', if_pos (le_refl D)]
  · simp [calculate_sphere_liquid_weight]
  · unfold calculate_sphere_liquid_weight
    rw [if_neg hD.ne', if_pos (le_refl D)]
  · simpa [hseg0] using hcontH.tendsto 0
  · simpa [hsegD] using hcontH.tendsto D
  · simpa [hcap0] using hcontS.tendsto 0
  · simpa [hcapD] using hcontS.tendsto D

/-- Closed instance of `tank_liquid_volume_boundary` at D = 2, L = 1,
density 1: the horizontal tank holds no liquid at zero fill height. -/
theorem tank_liquid_volume_boundary_witness :
    calculate_horizontal_liquid_weight 2 1 0 1 = 0 :=
  (tank_liquid_volume_boundary 2 1 1 (by norm_num)).1
